import Mathlib

/-!
Verification of the wearable craving-detection pipeline of `WearableApi`.

This file shallowly embeds the data model (`api/models/`), the reading
ingestion endpoint (`api/views.py`, `LecturaViewSet.create`), the Celery
pipeline tasks (`api/tasks.py`) and the notification WebSocket consumer
(`api/consumers.py`), and proves or refutes the specified properties.

Conventions of the embedding:
* sensor values and probabilities are exact rationals (`ℚ`) instead of
  Python floats, so all claimed arithmetic identities are exact;
* timestamps are integers counting minutes (the code only compares
  timestamps and subtracts fixed minute offsets);
* `numpy.std` returns the square root of the population variance; the
  embedding tracks the square of that quantity (`hr_std_sq`) so that it
  stays inside `ℚ`; equalities of the squares determine equalities of the
  standard deviations, which are their nonnegative square roots;
* Django querysets become Lean lists ordered by insertion (creation) order;
* a Celery task raising an exception is modelled as an explicit error
  outcome; `task.retry` is modelled by an explicit retry loop.
-/

namespace WearableApi

/-- A raw sensor reading (`Lectura` in `api/models/sensor.py`): heart rate
and the six motion axes are all nullable (sensor dropout). -/
structure Lectura where
  heart_rate : Option ℚ
  accel_x : Option ℚ
  accel_y : Option ℚ
  accel_z : Option ℚ
  gyro_x : Option ℚ
  gyro_y : Option ℚ
  gyro_z : Option ℚ
deriving DecidableEq, Repr

/-- A time window (`Ventana` in `api/models/sensor.py`).  The four
statistics fields are nullable and filled in by
`calculate_ventana_statistics`; `hr_std_sq` tracks the square of the
stored `hr_std` (see the file header). -/
structure Ventana where
  id : ℕ
  consumidor : ℕ
  window_start : ℤ
  window_end : ℤ
  hr_mean : Option ℚ
  hr_std_sq : Option ℚ
  accel_energy : Option ℚ
  gyro_energy : Option ℚ
deriving DecidableEq, Repr

/-- A stored reading row: the reading data plus its row id and the id of
the window it belongs to. -/
structure StoredLectura where
  id : ℕ
  ventana : ℕ
  data : Lectura
deriving DecidableEq, Repr

/-- A craving event (`Deseo` in `api/models/analysis.py`). -/
structure Deseo where
  id : ℕ
  consumidor : ℕ
  ventana : Option ℕ
  tipo : String
  resolved : Bool
deriving DecidableEq, Repr

/-- A notification (`Notificacion` in `api/models/analysis.py`). -/
structure Notificacion where
  id : ℕ
  consumidor : ℕ
  deseo : Option ℕ
  tipo : String
  contenido : String
  fecha_envio : ℤ
  leida : Bool
deriving DecidableEq, Repr

/-- A monitored consumer (`Consumidor` in `api/models/user.py`).
`is_simulating` is the per-consumer opt-in flag for the synthetic
generator; it is referenced by `api/tasks.py` and `api/serializers.py`
(the column itself is declared in a database migration). -/
structure Consumidor where
  id : ℕ
  usuario : ℕ
  is_simulating : Bool
deriving DecidableEq, Repr

/-- The relational store as seen by the pipeline: consumers, windows,
readings, craving events and notifications.  Lists are in creation
order. -/
structure Store where
  consumidores : List Consumidor
  ventanas : List Ventana
  lecturas : List StoredLectura
  deseos : List Deseo
  notificaciones : List Notificacion
deriving DecidableEq, Repr

/-- `Ventana.objects.get(id=vid)`: the window with the given id, if any. -/
def findVentana (st : Store) (vid : ℕ) : Option Ventana :=
  st.ventanas.find? (fun v => v.id == vid)

/-- `Lectura.objects.filter(ventana_id=vid)` in creation order. -/
def lecturasOf (st : Store) (vid : ℕ) : List Lectura :=
  (st.lecturas.filter (fun l => l.ventana == vid)).map (fun l => l.data)

/-- Replace the window with id `v.id` by `v` (Django `ventana.save()` on an
existing row). -/
def saveVentana (st : Store) (v : Ventana) : Store :=
  { st with ventanas := st.ventanas.map (fun w => if w.id = v.id then v else w) }

/-! ## Risk tiering and high-risk side effects (`predict_smoking_craving`,
`api/tasks.py` lines 181-240) -/

/-- Risk tiers produced by the prediction worker. -/
inductive RiskLevel
  | high
  | medium
  | low
deriving DecidableEq, Repr

/-- The tiering rule of `api/tasks.py` lines 181-189:
`probability >= 0.7` is high, else `probability >= 0.4` is medium, else
low. -/
def riskLevel (probability : ℚ) : RiskLevel :=
  if probability ≥ 7/10 then .high
  else if probability ≥ 4/10 then .medium
  else .low

/-- The high-risk block of `api/tasks.py` lines 224-240: when the risk
level is `high`, create one `Deseo` (`tipo='sustancia'`, `resolved=False`)
and one `Notificacion` (`tipo='alerta'`, `leida=False`) referencing it;
otherwise create nothing.  `deseoId`/`notifId` are the fresh row ids and
`now` is the send timestamp. -/
def predictCreateAlerts (st : Store) (consumidorId ventanaId deseoId notifId : ℕ)
    (comentario : String) (now : ℤ) (level : RiskLevel) : Store :=
  if level = .high then
    { st with
      deseos := st.deseos ++
        [{ id := deseoId, consumidor := consumidorId, ventana := some ventanaId,
           tipo := "sustancia", resolved := false }],
      notificaciones := st.notificaciones ++
        [{ id := notifId, consumidor := consumidorId, deseo := some deseoId,
           tipo := "alerta", contenido := comentario, fecha_envio := now,
           leida := false }] }
  else st

/-! ## Reading ingestion triggers (`LecturaViewSet.create`,
`api/views.py` lines 819-866) -/

/-- The two deferred tasks `LecturaViewSet.create` may enqueue after a
reading is stored: `check_and_calculate_ventana_stats` when the running
count is a multiple of 5 (lines 857-861), and an unconditional
`calculate_ventana_statistics` when the window has already ended
(lines 864-866). -/
structure IngestTriggers where
  statsCheck : Bool
  forcedCalc : Bool
deriving DecidableEq, Repr

/-- Trigger decisions of `LecturaViewSet.create` for a stored reading:
`lecturaCount` is the reading count of the window after the insert,
`now` the request time and `windowEnd` the window's `window_end`. -/
def lecturaCreateTriggers (lecturaCount : ℕ) (now windowEnd : ℤ) : IngestTriggers :=
  { statsCheck := lecturaCount % 5 == 0
    forcedCalc := windowEnd ≤ now }

/-- `check_and_calculate_ventana_stats` (`api/tasks.py` lines 575-613):
enqueues `calculate_ventana_statistics` iff the reading count has reached
`min_readings` (default 5). -/
def checkAndCalculateFires (lecturaCount minReadings : ℕ) : Bool :=
  minReadings ≤ lecturaCount

/-- How many statistics computations get scheduled as a consequence of this
accepted reading: one via the count-based check path when it fires, plus
one via the forced end-of-window path. -/
def statsComputationsScheduled (lecturaCount : ℕ) (now windowEnd : ℤ) : ℕ :=
  (if (lecturaCreateTriggers lecturaCount now windowEnd).statsCheck
      && checkAndCalculateFires lecturaCount 5 then 1 else 0) +
  (if (lecturaCreateTriggers lecturaCount now windowEnd).forcedCalc then 1 else 0)

/-- Responses of the ingestion endpoint. -/
inductive CreateLecturaResponse
  | created (id : ℕ)
  | notFound (ventanaId : ℕ)
  | badRequest
deriving DecidableEq, Repr

/-- `LecturaViewSet.create` (`api/views.py` lines 819-881): reject a
missing id with 400, a nonexistent window with 404 (before any write);
otherwise store the reading, recount, and decide the triggers. -/
def lecturaCreate (st : Store) (ventanaId : Option ℕ) (r : Lectura)
    (freshId : ℕ) (now : ℤ) : Store × CreateLecturaResponse × IngestTriggers :=
  match ventanaId with
  | none => (st, .badRequest, ⟨false, false⟩)
  | some vid =>
    match findVentana st vid with
    | none => (st, .notFound vid, ⟨false, false⟩)
    | some v =>
      let st' : Store :=
        { st with lecturas := st.lecturas ++ [{ id := freshId, ventana := vid, data := r }] }
      let count := (st'.lecturas.filter (fun l => l.ventana == vid)).length
      (st', .created freshId, lecturaCreateTriggers count now v.window_end)

/-! ## Statistics calculator (`calculate_ventana_statistics`,
`api/tasks.py` lines 445-571) -/

/-- Mean of a list of rationals (`numpy.mean`; callers guard against the
empty list). -/
def listMean (xs : List ℚ) : ℚ :=
  xs.sum / (xs.length : ℚ)

/-- Population variance of a list of rationals: the square of `numpy.std`
(which uses `ddof=0`). -/
def listPopVar (xs : List ℚ) : ℚ :=
  ((xs.map (fun x => (x - listMean xs) ^ 2)).sum) / (xs.length : ℚ)

/-- Heart-rate values that are present, in reading order
(`api/tasks.py` lines 493-495). -/
def presentHeartRates (ls : List Lectura) : List ℚ :=
  ls.filterMap (fun l => l.heart_rate)

/-- Present values of one sensor axis, in reading order
(`api/tasks.py` lines 497-509). -/
def presentAxis (axis : Lectura → Option ℚ) (ls : List Lectura) : List ℚ :=
  ls.filterMap axis

/-- Element-wise addition of two 1-d `numpy` arrays, with `numpy`
broadcasting: equal lengths add pointwise, a length-1 array broadcasts
over the other, and any other shape pair raises `ValueError` (`none`). -/
def npBroadcastAdd (a b : List ℚ) : Option (List ℚ) :=
  if a.length = b.length then some (List.zipWith (· + ·) a b)
  else if a.length = 1 then some (b.map (fun y => a.headI + y))
  else if b.length = 1 then some (a.map (fun x => x + b.headI))
  else none

/-- Outcome of one energy computation  in
`calculate_ventana_statistics`. -/
inductive EnergyOutcome
  | raised
  | skipped
  | value (e : ℚ)
deriving DecidableEq, Repr

/-- The energy computation of `api/tasks.py` lines 521-533 (and 536-548
for the gyroscope): skip when any axis has no present values; otherwise
sum the `numpy` broadcast of the three squared axis arrays — a shape
mismatch raises and aborts the task body. -/
def axisEnergy (xs ys zs : List ℚ) : EnergyOutcome :=
  if xs = [] ∨ ys = [] ∨ zs = [] then .skipped
  else
    match npBroadcastAdd (xs.map (fun x => x ^ 2)) (ys.map (fun y => y ^ 2)) with
    | none => .raised
    | some s =>
      match npBroadcastAdd s (zs.map (fun z => z ^ 2)) with
      | none => .raised
      | some s2 => .value s2.sum

/-- The in-memory field updates of `calculate_ventana_statistics`
(`api/tasks.py` lines 484-551) followed by `ventana.save()`: heart-rate
statistics over the present heart-rate values (fields kept when none
exist), then the accelerometer and gyroscope energies.  `none` means an
exception was raised before `save()`, so nothing is written. -/
def applyStatistics (v : Ventana) (ls : List Lectura) : Option Ventana :=
  let hrs := presentHeartRates ls
  let v1 :=
    if hrs = [] then v
    else { v with hr_mean := some (listMean hrs), hr_std_sq := some (listPopVar hrs) }
  match axisEnergy (presentAxis Lectura.accel_x ls) (presentAxis Lectura.accel_y ls)
      (presentAxis Lectura.accel_z ls) with
  | .raised => none
  | ae =>
    let v2 := match ae with
      | .value e => { v1 with accel_energy := some e }
      | _ => v1
    match axisEnergy (presentAxis Lectura.gyro_x ls) (presentAxis Lectura.gyro_y ls)
        (presentAxis Lectura.gyro_z ls) with
    | .raised => none
    | .skipped => some v2
    | .value e => some { v2 with gyro_energy := some e }

/-- Final outcomes of the `calculate_ventana_statistics` task. -/
inductive CalcOutcome
  | notFound
  | noReadings
  | raised
  | ok
deriving DecidableEq, Repr

/-- `calculate_ventana_statistics` (`api/tasks.py` lines 445-571): missing
window and empty reading set are terminal failures returned to the
caller; an exception (`raised`) leaves the store untouched and is
retried by Celery; otherwise the recomputed statistics overwrite the
window row. -/
def calculateVentanaStatistics (st : Store) (vid : ℕ) : Store × CalcOutcome :=
  match findVentana st vid with
  | none => (st, .notFound)
  | some v =>
    let ls := lecturasOf st vid
    if ls = [] then (st, .noReadings)
    else
      match applyStatistics v ls with
      | none => (st, .raised)
      | some v' => (saveVentana st v', .ok)

/-- The specification's accelerometer energy: `Σ (x²+y²+z²)` over exactly
the readings whose accelerometer triple is complete.  Stated over an
arbitrary triple of axis projections so the gyroscope reading is the same
definition. -/
def completeTripleEnergy (ax ay az : Lectura → Option ℚ) (ls : List Lectura) : ℚ :=
  (ls.filterMap (fun l =>
    match ax l, ay l, az l with
    | some x, some y, some z => some (x ^ 2 + y ^ 2 + z ^ 2)
    | _, _, _ => none)).sum

/-! ## Feature derivation for prediction
(`calculate_features_from_readings`, `api/tasks.py` lines 17-72) -/

/-- The four derived features that `predict_smoking_craving` persists onto
the window (`api/tasks.py` lines 202-205).  The features dict also
carries min/max/range and magnitude statistics that no claim and no
persisted field depends on; they are omitted here. -/
structure Features where
  hr_mean : ℚ
  hr_std_sq : ℚ
  accel_energy : ℚ
  gyro_energy : ℚ
deriving DecidableEq, Repr

/-- The feature computation of `api/tasks.py` lines 36-70: every missing
field is substituted by `0` (`l.heart_rate or 0`, etc.) and the
aggregates run over all readings. -/
def featuresFromLecturas (ls : List Lectura) : Features :=
  let hrs := ls.map (fun l => l.heart_rate.getD 0)
  { hr_mean := listMean hrs
    hr_std_sq := listPopVar hrs
    accel_energy := (ls.map (fun l =>
      (l.accel_x.getD 0) ^ 2 + (l.accel_y.getD 0) ^ 2 + (l.accel_z.getD 0) ^ 2)).sum
    gyro_energy := (ls.map (fun l =>
      (l.gyro_x.getD 0) ^ 2 + (l.gyro_y.getD 0) ^ 2 + (l.gyro_z.getD 0) ^ 2)).sum }

/-- Accumulator step selecting the window with the larger
`window_start` (the earlier one wins ties). -/
def mostRecentAcc (acc : Option Ventana) (v : Ventana) : Option Ventana :=
  match acc with
  | none => some v
  | some w => if w.window_start < v.window_start then some v else some w

/-- The most recent window of a list (highest `window_start`; the first
such window in list order on ties), mirroring
`order_by('-window_start')[:1]`. -/
def mostRecentVentana (vs : List Ventana) : Option Ventana :=
  vs.foldl mostRecentAcc none

/-- The consumer's windows whose `window_start` lies within the lookback
horizon (`window_start >= now - time_window_minutes`,
`api/tasks.py` lines 18-23). -/
def ventanasInHorizon (st : Store) (consumidorId : ℕ) (now : ℤ)
    (timeWindowMinutes : ℤ) : List Ventana :=
  st.ventanas.filter (fun v =>
    v.consumidor == consumidorId && decide (now - timeWindowMinutes ≤ v.window_start))

/-- `calculate_features_from_readings` (`api/tasks.py` lines 17-72): take
the single most recent window inside the 30-minute horizon; return `none`
(no recent data) when there is no such window or when that particular
window has no readings; otherwise derive the features from its
readings. -/
def calculateFeaturesFromReadings (st : Store) (consumidorId : ℕ) (now : ℤ) :
    Option (Features × ℕ) :=
  match mostRecentVentana (ventanasInHorizon st consumidorId now 30) with
  | none => none
  | some v =>
    let ls := lecturasOf st v.id
    if ls = [] then none
    else some (featuresFromLecturas ls, v.id)

/-- The persistence step of `predict_smoking_craving`
(`api/tasks.py` lines 202-206): overwrite the window's four statistics
fields with the feature values, whatever they were before. -/
def predictPersistStats (v : Ventana) (f : Features) : Ventana :=
  { v with hr_mean := some f.hr_mean, hr_std_sq := some f.hr_std_sq,
           accel_energy := some f.accel_energy, gyro_energy := some f.gyro_energy }

/-! ## Retry semantics of `predict_smoking_craving`
(`api/tasks.py` lines 74-266) -/

/-- What one attempt of the `predict_smoking_craving` task body runs into.
All constructors except `ok` and `raised` correspond to error paths that
the body catches itself and turns into a `{'success': False}` return
value: missing user/consumer rows (lines 79-100), no recent sensor data
(lines 110-117), `FileNotFoundError` or any other exception while loading
the model package (lines 137-157), and a missing required feature
(lines 161-169).  `raised` is an exception escaping to the outer handler
(line 259), e.g. a data-store failure while persisting. -/
inductive PredictStep
  | ok
  | noUsuario
  | noConsumidor
  | noRecentData
  | modelNotFound
  | modelLoadError
  | missingFeature
  | raised
deriving DecidableEq, Repr

/-- Final result of a `predict_smoking_craving` invocation:
`success`/`failure` carry the number of attempts executed; `exhausted`
means the last retry budget was already spent when an exception escaped
again. -/
inductive PredictFinal
  | success (attempts : ℕ)
  | failure (attempts : ℕ)
  | exhausted (attempts : ℕ)
deriving DecidableEq, Repr

/-- `max_retries=3` on the task decorator (`api/tasks.py` line 74). -/
def predictMaxRetries : ℕ := 3

/-- `countdown=60 * (2 ** self.request.retries)` (`api/tasks.py`
line 266): the backoff before retry number `retries + 1`. -/
def retryCountdown (retries : ℕ) : ℕ :=
  60 * 2 ^ retries

/-- The Celery retry loop around the task body: `env a` is what attempt
`a` (0-based) runs into; an escaping exception re-enqueues the task with
`retryCountdown` as long as fewer than `predictMaxRetries` retries were
used.  Returns the final result and the list of countdowns used.  `fuel`
is an upper bound on the remaining attempts. -/
def predictLoop (env : ℕ → PredictStep) : ℕ → ℕ → List ℕ → PredictFinal × List ℕ
  | _, 0, cds => (.exhausted 0, cds)
  | attempt, fuel + 1, cds =>
    match env attempt with
    | .ok => (.success (attempt + 1), cds)
    | .raised =>
      if attempt < predictMaxRetries then
        predictLoop env (attempt + 1) fuel (cds ++ [retryCountdown attempt])
      else (.exhausted (attempt + 1), cds)
    | _ => (.failure (attempt + 1), cds)

/-- A full run of `predict_smoking_craving` under attempt outcomes
`env`. -/
def predictRun (env : ℕ → PredictStep) : PredictFinal × List ℕ :=
  predictLoop env 0 (predictMaxRetries + 1) []

/-! ## Notification fanout (`NotificationConsumer`,
`api/consumers.py` lines 15-147) -/

/-- Newest-first order on notifications by send timestamp
(`order_by('-fecha_envio')`). -/
def fechaDesc (a b : Notificacion) : Prop :=
  b.fecha_envio ≤ a.fecha_envio

instance : DecidableRel fechaDesc := fun a b =>
  inferInstanceAs (Decidable (b.fecha_envio ≤ a.fecha_envio))

instance : IsTotal Notificacion fechaDesc :=
  ⟨fun a b => le_total b.fecha_envio a.fecha_envio⟩

instance : IsTrans Notificacion fechaDesc :=
  ⟨fun _ _ _ h h' => le_trans h' h⟩

/-- `NotificationConsumer.get_unread_notifications`
(`api/consumers.py` lines 113-132): the consumer's unread notifications,
newest first, truncated to the 20 most recent. -/
def getUnreadNotifications (notifs : List Notificacion) (consumidorId : ℕ) :
    List Notificacion :=
  (List.insertionSort fechaDesc
    (notifs.filter (fun n => n.consumidor == consumidorId && !n.leida))).take 20

/-- Messages a notification subscriber can receive. -/
inductive WsMessage
  | initialBatch (batch : List Notificacion)
  | livePush (n : Notificacion)
deriving DecidableEq, Repr

/-- The message stream one subscriber observes: `connect`
(`api/consumers.py` lines 40-49) sends the unread backlog as a single
batch before the consumer's dispatch loop delivers any queued
`notification_message` push. -/
def subscriberStream (notifs : List Notificacion) (consumidorId : ℕ)
    (pushes : List Notificacion) : List WsMessage :=
  .initialBatch (getUnreadNotifications notifs consumidorId) ::
    pushes.map .livePush

/-- `NotificationConsumer.mark_notification_read`
(`api/consumers.py` lines 134-147): set `leida=True` on the notification
with the given id belonging to this consumer; a lookup miss
(other consumer's notification, or no such id) is caught and changes
nothing. -/
def markNotificationRead (notifs : List Notificacion) (consumidorId nid : ℕ) :
    List Notificacion :=
  notifs.map (fun n =>
    if n.id = nid ∧ n.consumidor = consumidorId then { n with leida := true } else n)

/-! ## Synthetic backup generator (`simulate_wearable_cycle`,
`api/tasks.py` lines 268-383) -/

/-- Outcomes of one synthetic-reading cycle. -/
inductive SimOutcome
  | disabled (consumidorId : ℕ)
  | ventanaNotFound
  | consumidorMissing
  | noneEnabled
  | generated (consumidorId ventanaId : ℕ)
deriving DecidableEq, Repr

/-- `Consumidor.objects.get(id=cid)`. -/
def findConsumidor (st : Store) (cid : ℕ) : Option Consumidor :=
  st.consumidores.find? (fun c => c.id == cid)

/-- Append a batch of generated readings for window `vid`, with fresh row
ids starting at `freshLid`. -/
def appendLecturas (st : Store) (vid freshLid : ℕ) (batch : List Lectura) : Store :=
  { st with lecturas := st.lecturas ++
      (batch.enum.map (fun p => { id := freshLid + p.1, ventana := vid, data := p.2 })) }

/-- `simulate_wearable_cycle` (`api/tasks.py` lines 268-383).  Targeted
mode (`ventana_id` given): abort when the window is missing or when its
consumer has `is_simulating=False` (lines 285-304).  Legacy mode: draw a
consumer only from those with `is_simulating=True` (lines 306-319) —
`random.choice` is modelled by the index `pick` into that filtered list —
and open a fresh one-minute window for it.  In either surviving case the
generated batch of readings (`batch`, five random samples in the source,
lines 347-364) is appended to the chosen window. -/
def simulateWearableCycle (st : Store) (ventanaId : Option ℕ) (pick : ℕ)
    (batch : List Lectura) (now : ℤ) (freshVid freshLid : ℕ) : Store × SimOutcome :=
  match ventanaId with
  | some vid =>
    match findVentana st vid with
    | none => (st, .ventanaNotFound)
    | some v =>
      match findConsumidor st v.consumidor with
      | none => (st, .consumidorMissing)
      | some c =>
        if c.is_simulating then
          (appendLecturas st vid freshLid batch, .generated c.id vid)
        else (st, .disabled c.id)
  | none =>
    let pool := st.consumidores.filter (fun c => c.is_simulating)
    match pool with
    | [] => (st, .noneEnabled)
    | p :: ps =>
      let c := (p :: ps).get ⟨pick % (p :: ps).length, Nat.mod_lt _ (Nat.succ_pos _)⟩
      let v : Ventana :=
        { id := freshVid, consumidor := c.id, window_start := now - 1, window_end := now,
          hr_mean := none, hr_std_sq := none, accel_energy := none, gyro_energy := none }
      (appendLecturas { st with ventanas := st.ventanas ++ [v] } freshVid freshLid batch,
        .generated c.id freshVid)

/-! ## Concrete example data for witnesses and counterexamples -/

/-- An empty store. -/
def exStore : Store :=
  { consumidores := [], ventanas := [], lecturas := [], deseos := [], notificaciones := [] }

/-- A fully populated reading. -/
def exLectura : Lectura :=
  { heart_rate := some 80, accel_x := some 1, accel_y := some 1, accel_z := some 1,
    gyro_x := some 1, gyro_y := some 1, gyro_z := some 1 }

/-! ## Theorems -/

/-- C1: the risk tier is high iff `p ≥ 0.7`, medium iff `0.4 ≤ p < 0.7`,
low iff `p < 0.4`; a high tier creates exactly one `Deseo`
(`resolved=false`) and one `Notificacion` (`leida=false`) referencing it,
while a non-high tier creates neither; `p = 0.85` is high and `p = 0.5`
is medium. -/
theorem risk_tiering_and_high_risk_alerts (st : Store)
    (cid vid did nid : ℕ) (com : String) (now : ℤ) (p : ℚ) :
    (riskLevel p = .high ↔ 7/10 ≤ p) ∧
    (riskLevel p = .medium ↔ 4/10 ≤ p ∧ p < 7/10) ∧
    (riskLevel p = .low ↔ p < 4/10) ∧
    (riskLevel p = .high →
      predictCreateAlerts st cid vid did nid com now (riskLevel p) =
        { st with
          deseos := st.deseos ++
            [{ id := did, consumidor := cid, ventana := some vid,
               tipo := "sustancia", resolved := false }],
          notificaciones := st.notificaciones ++
            [{ id := nid, consumidor := cid, deseo := some did, tipo := "alerta",
               contenido := com, fecha_envio := now, leida := false }] }) ∧
    (riskLevel p ≠ .high →
      predictCreateAlerts st cid vid did nid com now (riskLevel p) = st) ∧
    riskLevel (85/100) = .high ∧ riskLevel (1/2) = .medium := by
  refine ⟨?_, ?_, ?_, ?_, ?_, by norm_num [riskLevel], by norm_num [riskLevel]⟩
  · unfold riskLevel
    split_ifs with h1 h2
    · exact ⟨fun _ => h1, fun _ => rfl⟩
    · exact ⟨fun h => absurd h (by simp), fun h => absurd h h1⟩
    · exact ⟨fun h => absurd h (by simp), fun h => absurd h h1⟩
  · unfold riskLevel
    split_ifs with h1 h2
    · exact ⟨fun h => absurd h (by simp), fun h => absurd h1 (not_le.mpr h.2)⟩
    · exact ⟨fun _ => ⟨h2, not_le.mp h1⟩, fun _ => rfl⟩
    · exact ⟨fun h => absurd h (by simp), fun h => absurd h.1 h2⟩
  · unfold riskLevel
    split_ifs with h1 h2
    · exact ⟨fun h => absurd h (by simp),
        fun h => absurd h1 (not_le.mpr (h.trans (by norm_num)))⟩
    · exact ⟨fun h => absurd h (by simp), fun h => absurd h2 (not_le.mpr h)⟩
    · exact ⟨fun _ => not_le.mp h2, fun _ => rfl⟩
  · intro h
    unfold predictCreateAlerts
    rw [h, if_pos rfl]
  · intro h
    unfold predictCreateAlerts
    rw [if_neg h]

/-- Witness for C1 at `p = 0.85`: the high-risk branch appends exactly one
craving event and one unread notification referencing it. -/
theorem risk_tiering_and_high_risk_alerts_witness :
    predictCreateAlerts exStore 1 2 3 4 "alerta" 0 (riskLevel (85/100)) =
      { exStore with
        deseos := exStore.deseos ++
          [{ id := 3, consumidor := 1, ventana := some 2,
             tipo := "sustancia", resolved := false }],
        notificaciones := exStore.notificaciones ++
          [{ id := 4, consumidor := 1, deseo := some 3, tipo := "alerta",
             contenido := "alerta", fecha_envio := 0, leida := false }] } :=
  (risk_tiering_and_high_risk_alerts exStore 1 2 3 4 "alerta" 0 (85/100)).2.2.2.1
    (by norm_num [riskLevel])

/-- C2: after an accepted reading, the number of statistics computations
scheduled decomposes as one when the running count is a (positive)
multiple of 5 plus one when the window has already ended; so something is
scheduled iff `5 ∣ count` or the window ended, and in the batch scenario
(window still open) counts 5 and 10 schedule exactly once while 6-9
schedule nothing. -/
theorem ingest_statistics_scheduling (count : ℕ) (now windowEnd : ℤ)
    (hpos : 0 < count) :
    statsComputationsScheduled count now windowEnd =
      (if count % 5 = 0 then 1 else 0) + (if windowEnd ≤ now then 1 else 0) ∧
    (0 < statsComputationsScheduled count now windowEnd ↔
      count % 5 = 0 ∨ windowEnd ≤ now) ∧
    (now < windowEnd →
      statsComputationsScheduled 5 now windowEnd = 1 ∧
      statsComputationsScheduled 6 now windowEnd = 0 ∧
      statsComputationsScheduled 7 now windowEnd = 0 ∧
      statsComputationsScheduled 8 now windowEnd = 0 ∧
      statsComputationsScheduled 9 now windowEnd = 0 ∧
      statsComputationsScheduled 10 now windowEnd = 1) := by
  have key : statsComputationsScheduled count now windowEnd =
      (if count % 5 = 0 then 1 else 0) + (if windowEnd ≤ now then 1 else 0) := by
    by_cases hm : count % 5 = 0
    · have hge : checkAndCalculateFires count 5 = true := by
        have h5 : 5 ∣ count := Nat.dvd_of_mod_eq_zero hm
        simpa [checkAndCalculateFires] using Nat.le_of_dvd hpos h5
      simp [statsComputationsScheduled, lecturaCreateTriggers, hm, hge]
    · simp [statsComputationsScheduled, lecturaCreateTriggers, hm]
  refine ⟨key, ?_, ?_⟩
  · rw [key]
    split_ifs with h1 h2 h2 <;> simp [h1, h2]
  · intro hlt
    have hno : ¬ windowEnd ≤ now := not_le.mpr hlt
    refine ⟨?_, ?_, ?_, ?_, ?_, ?_⟩ <;>
      simp [statsComputationsScheduled, lecturaCreateTriggers,
        checkAndCalculateFires, hno]

/-- Witness for C2 at `count = 5` with an open window. -/
theorem ingest_statistics_scheduling_witness :
    0 < 5 ∧ (0 < statsComputationsScheduled 5 0 1 ↔ 5 % 5 = 0 ∨ (1 : ℤ) ≤ 0) :=
  ⟨by decide, (ingest_statistics_scheduling 5 0 1 (by decide)).2.1⟩

/-- C8: ingesting a reading against a window id with no matching `Ventana`
returns `notFound` synchronously, leaves the store untouched (no reading
stored, no window created) and schedules nothing. -/
theorem lectura_create_unknown_window (st : Store) (vid fid : ℕ) (r : Lectura)
    (now : ℤ) (h : findVentana st vid = none) :
    lecturaCreate st (some vid) r fid now = (st, .notFound vid, ⟨false, false⟩) ∧
    (lecturaCreate st (some vid) r fid now).1.lecturas = st.lecturas ∧
    (lecturaCreate st (some vid) r fid now).1.ventanas = st.ventanas := by
  refine ⟨?_, ?_, ?_⟩ <;> simp [lecturaCreate, h]

/-- Witness for C8: window id 7 does not exist in the empty store. -/
theorem lectura_create_unknown_window_witness :
    lecturaCreate exStore (some 7) exLectura 1 0 =
      (exStore, .notFound 7, ⟨false, false⟩) :=
  (lectura_create_unknown_window exStore 7 1 exLectura 0 (by decide)).1

/-- C10: over consumer `cid`'s channel, `mark_read` only ever touches the
notification whose id is `nid` and whose owner is `cid`: if no stored
notification matches both, the whole list is unchanged; and pointwise,
each output entry is either the input entry unchanged (non-matching) or
the matching input entry with only `leida` set to true. -/
theorem mark_read_scoped_frame (notifs : List Notificacion) (cid nid : ℕ) :
    ((∀ n ∈ notifs, ¬(n.id = nid ∧ n.consumidor = cid)) →
      markNotificationRead notifs cid nid = notifs) ∧
    List.Forall₂ (fun m n =>
      (m = n ∧ ¬(n.id = nid ∧ n.consumidor = cid)) ∨
      (n.id = nid ∧ n.consumidor = cid ∧ m = { n with leida := true }))
      (markNotificationRead notifs cid nid) notifs := by
  constructor
  · induction notifs with
    | nil => intro _; rfl
    | cons n ns ih =>
      intro hnone
      have h1 : ¬(n.id = nid ∧ n.consumidor = cid) :=
        hnone n (List.mem_cons_self n ns)
      have h2 := ih (fun m hm => hnone m (List.mem_cons_of_mem _ hm))
      simp only [markNotificationRead, List.map_cons, if_neg h1] at h2 ⊢
      rw [h2]
  · induction notifs with
    | nil => exact List.Forall₂.nil
    | cons n ns ih =>
      simp only [markNotificationRead, List.map_cons] at ih ⊢
      refine List.Forall₂.cons ?_ ih
      by_cases h : n.id = nid ∧ n.consumidor = cid
      · exact Or.inr ⟨h.1, h.2, by rw [if_pos h]⟩
      · exact Or.inl ⟨by rw [if_neg h], h⟩

/-- Two stored notifications: id 1 owned by consumer 1, id 2 owned by
consumer 2. -/
def exNotifPair : List Notificacion :=
  [{ id := 1, consumidor := 1, deseo := none, tipo := "alerta", contenido := "a",
     fecha_envio := 5, leida := false },
   { id := 2, consumidor := 2, deseo := none, tipo := "alerta", contenido := "b",
     fecha_envio := 6, leida := false }]

/-- Witness for C10: consumer 1 asking to mark notification 2 (which
belongs to consumer 2) changes nothing. -/
theorem mark_read_scoped_frame_witness :
    markNotificationRead exNotifPair 1 2 = exNotifPair :=
  (mark_read_scoped_frame exNotifPair 1 2).1 (by decide)

/-- C7: the backlog a fresh subscriber receives is bounded to 20
notifications, contains only the consumer's unread ones, is ordered
newest first, is exactly the consumer's unread set whenever that set has
at most 20 entries, and is delivered as the single batch heading the
stream, before any live push. -/
theorem backlog_batch_structure (notifs : List Notificacion) (cid : ℕ)
    (pushes : List Notificacion) :
    (getUnreadNotifications notifs cid).length ≤ 20 ∧
    (∀ n ∈ getUnreadNotifications notifs cid, n.consumidor = cid ∧ n.leida = false) ∧
    List.Sorted fechaDesc (getUnreadNotifications notifs cid) ∧
    ((notifs.filter (fun n => n.consumidor == cid && !n.leida)).length ≤ 20 →
      (getUnreadNotifications notifs cid).Perm
        (notifs.filter (fun n => n.consumidor == cid && !n.leida))) ∧
    subscriberStream notifs cid pushes =
      .initialBatch (getUnreadNotifications notifs cid) :: pushes.map .livePush := by
  refine ⟨List.length_take_le 20 _, ?_, ?_, ?_, rfl⟩
  · intro n hn
    have h1 : n ∈ List.insertionSort fechaDesc
        (notifs.filter (fun n => n.consumidor == cid && !n.leida)) :=
      List.mem_of_mem_take hn
    have h2 : n ∈ notifs.filter (fun n => n.consumidor == cid && !n.leida) :=
      (List.perm_insertionSort fechaDesc _).mem_iff.mp h1
    have h3 := (List.mem_filter.mp h2).2
    simp only [Bool.and_eq_true, beq_iff_eq, Bool.not_eq_true'] at h3
    exact h3
  · exact List.Pairwise.sublist (List.take_sublist 20 _)
      (List.sorted_insertionSort fechaDesc _)
  · intro hle
    unfold getUnreadNotifications
    rw [List.take_of_length_le (by rw [List.length_insertionSort]; exact hle)]
    exact List.perm_insertionSort fechaDesc _

/-- Notification 1 of consumer 1, sent at minute 1, unread. -/
def exNotif1 : Notificacion :=
  { id := 1, consumidor := 1, deseo := none, tipo := "alerta", contenido := "n1",
    fecha_envio := 1, leida := false }

/-- Notification 2 of consumer 1, sent at minute 2, unread. -/
def exNotif2 : Notificacion :=
  { id := 2, consumidor := 1, deseo := none, tipo := "alerta", contenido := "n2",
    fecha_envio := 2, leida := false }

/-- Notification 3 of consumer 1, sent at minute 3, unread. -/
def exNotif3 : Notificacion :=
  { id := 3, consumidor := 1, deseo := none, tipo := "alerta", contenido := "n3",
    fecha_envio := 3, leida := false }

/-- The notification table holding exactly three unread notifications for
consumer 1, stored oldest first. -/
def exBacklogNotifs : List Notificacion := [exNotif1, exNotif2, exNotif3]

/-- Witness for C7: with exactly 3 unread notifications the backlog batch
is exactly those 3, newest first. -/
theorem backlog_batch_structure_witness :
    getUnreadNotifications exBacklogNotifs 1 = [exNotif3, exNotif2, exNotif1] ∧
    (getUnreadNotifications exBacklogNotifs 1).Perm
      (exBacklogNotifs.filter (fun n => n.consumidor == 1 && !n.leida)) :=
  ⟨by decide, (backlog_batch_structure exBacklogNotifs 1 []).2.2.2.1 (by decide)⟩

/-- `true` exactly on `generated` outcomes of the synthetic cycle. -/
def isGeneratedOutcome : SimOutcome → Bool
  | .generated _ _ => true
  | _ => false

/-- Consumers drawn from the `is_simulating` filter are opted-in members
of the store. -/
theorem filter_simulating_get_mem (st : Store) (p : Consumidor)
    (ps : List Consumidor)
    (hpool : st.consumidores.filter (fun c => c.is_simulating) = p :: ps)
    (i : ℕ) (hi : i < (p :: ps).length) :
    (p :: ps).get ⟨i, hi⟩ ∈ st.consumidores ∧
    ((p :: ps).get ⟨i, hi⟩).is_simulating = true := by
  have hmem : (p :: ps).get ⟨i, hi⟩ ∈ p :: ps := List.get_mem _ _ _
  have hmem2 : (p :: ps).get ⟨i, hi⟩ ∈
      st.consumidores.filter (fun c => c.is_simulating) := by
    rw [hpool]
    exact hmem
  exact List.mem_filter.mp hmem2

/-- C9: the synthetic backup generator never creates readings for a
consumer who has not opted in: a `generated` outcome always names a
stored consumer whose `is_simulating` flag is true, and any run that does
not generate leaves the store untouched. -/
theorem synthetic_cycle_opt_in (st : Store) (ventanaId : Option ℕ) (pick : ℕ)
    (batch : List Lectura) (now : ℤ) (fv fl : ℕ) :
    (∀ cid vid,
      (simulateWearableCycle st ventanaId pick batch now fv fl).2 = .generated cid vid →
      ∃ c ∈ st.consumidores, c.id = cid ∧ c.is_simulating = true) ∧
    (isGeneratedOutcome (simulateWearableCycle st ventanaId pick batch now fv fl).2 = false →
      (simulateWearableCycle st ventanaId pick batch now fv fl).1 = st) := by
  cases hvid : ventanaId with
  | some wid =>
    cases hfv : findVentana st wid with
    | none =>
      exact ⟨fun cid vid hgen => by simp [simulateWearableCycle, hfv] at hgen,
        fun _ => by simp [simulateWearableCycle, hfv]⟩
    | some v =>
      cases hfc : findConsumidor st v.consumidor with
      | none =>
        exact ⟨fun cid vid hgen => by simp [simulateWearableCycle, hfv, hfc] at hgen,
          fun _ => by simp [simulateWearableCycle, hfv, hfc]⟩
      | some c =>
        by_cases hsim : c.is_simulating
        · constructor
          · intro cid vid hgen
            simp only [simulateWearableCycle, hfv, hfc, if_pos hsim,
              SimOutcome.generated.injEq] at hgen
            exact ⟨c, List.mem_of_find?_eq_some hfc, hgen.1, hsim⟩
          · intro hne
            simp [simulateWearableCycle, hfv, hfc, hsim, isGeneratedOutcome] at hne
        · exact ⟨fun cid vid hgen => by
              simp [simulateWearableCycle, hfv, hfc, hsim] at hgen,
            fun _ => by simp [simulateWearableCycle, hfv, hfc, hsim]⟩
  | none =>
    cases hpool : st.consumidores.filter (fun c => c.is_simulating) with
    | nil =>
      exact ⟨fun cid vid hgen => by simp [simulateWearableCycle, hpool] at hgen,
        fun _ => by simp [simulateWearableCycle, hpool]⟩
    | cons p ps =>
      constructor
      · intro cid vid hgen
        simp only [simulateWearableCycle, hpool, SimOutcome.generated.injEq] at hgen
        obtain ⟨hcid, _⟩ := hgen
        obtain ⟨hmem, hflag⟩ := filter_simulating_get_mem st p ps hpool
          (pick % (p :: ps).length) (Nat.mod_lt _ (Nat.succ_pos _))
        exact ⟨_, hmem, hcid, hflag⟩
      · intro hne
        simp [simulateWearableCycle, hpool, isGeneratedOutcome] at hne

/-- An open window (id 5) belonging to consumer 1, statistics unset. -/
def exVentanaOptedOut : Ventana :=
  { id := 5, consumidor := 1, window_start := 0, window_end := 10,
    hr_mean := none, hr_std_sq := none, accel_energy := none, gyro_energy := none }

/-- A store holding only window `exVentanaOptedOut` and its consumer
(id 1), who has opted out of simulation (`is_simulating=false`). -/
def exStoreOptedOut : Store :=
  { consumidores := [{ id := 1, usuario := 1, is_simulating := false }],
    ventanas := [exVentanaOptedOut],
    lecturas := [], deseos := [], notificaciones := [] }

/-- Witness for C9: a targeted cycle against the opted-out consumer's
window generates nothing and leaves the store unchanged. -/
theorem synthetic_cycle_opt_in_witness :
    (simulateWearableCycle exStoreOptedOut (some 5) 0 [exLectura] 0 9 9).2 =
      .disabled 1 ∧
    (simulateWearableCycle exStoreOptedOut (some 5) 0 [exLectura] 0 9 9).1 =
      exStoreOptedOut :=
  ⟨by decide,
    (synthetic_cycle_opt_in exStoreOptedOut (some 5) 0 [exLectura] 0 9 9).2 (by decide)⟩

/-- Attempt outcomes with the model store unavailable on the first two
attempts. -/
def envModelDownTwice : ℕ → PredictStep :=
  fun a => if a < 2 then .modelLoadError else .ok

/-- Attempt outcomes with a transient escaping error on the first two
attempts. -/
def envTransientTwice : ℕ → PredictStep :=
  fun a => if a < 2 then .raised else .ok

/-- Counterexample to C4: a model-store failure is caught inside the task
body and returned as a terminal failure after the first attempt — with
the model store down on the first two attempts the run does NOT end in
success after 2 retries; it ends in failure after 1 attempt with no
backoff at all. -/
theorem predict_model_down_not_retried :
    predictRun envModelDownTwice = (.failure 1, []) ∧
    (PredictFinal.failure 1, ([] : List ℕ)) ≠ (.success 3, [60, 120]) := by
  constructor
  · decide
  · decide

/-- One-step unfolding equation of the retry loop at positive fuel. -/
theorem predictLoop_succ_eq (env : ℕ → PredictStep) (attempt fuel : ℕ)
    (cds : List ℕ) :
    predictLoop env attempt (fuel + 1) cds =
      match env attempt with
      | .ok => (.success (attempt + 1), cds)
      | .raised =>
        if attempt < predictMaxRetries then
          predictLoop env (attempt + 1) fuel (cds ++ [retryCountdown attempt])
        else (.exhausted (attempt + 1), cds)
      | _ => (.failure (attempt + 1), cds) := rfl

/-- One unfolding step of the retry loop when the attempt succeeds. -/
theorem predictLoop_ok (env : ℕ → PredictStep) (attempt fuel : ℕ) (cds : List ℕ)
    (h : env attempt = .ok) :
    predictLoop env attempt (fuel + 1) cds = (.success (attempt + 1), cds) := by
  simp only [predictLoop_succ_eq, h]

/-- One unfolding step of the retry loop when an exception escapes and
retry budget remains. -/
theorem predictLoop_raised_retry (env : ℕ → PredictStep) (attempt fuel : ℕ)
    (cds : List ℕ) (h : env attempt = .raised) (hlt : attempt < predictMaxRetries) :
    predictLoop env attempt (fuel + 1) cds =
      predictLoop env (attempt + 1) fuel (cds ++ [retryCountdown attempt]) := by
  simp only [predictLoop_succ_eq, h]
  rw [if_pos hlt]

/-- One unfolding step of the retry loop when an exception escapes with
the retry budget spent. -/
theorem predictLoop_raised_spent (env : ℕ → PredictStep) (attempt fuel : ℕ)
    (cds : List ℕ) (h : env attempt = .raised)
    (hge : ¬ attempt < predictMaxRetries) :
    predictLoop env attempt (fuel + 1) cds = (.exhausted (attempt + 1), cds) := by
  simp only [predictLoop_succ_eq, h]
  rw [if_neg hge]

/-- One unfolding step of the retry loop when the body catches its own
error and returns a failure payload. -/
theorem predictLoop_caught (env : ℕ → PredictStep) (attempt fuel : ℕ)
    (cds : List ℕ) (s : PredictStep) (h : env attempt = s)
    (hok : s ≠ .ok) (hra : s ≠ .raised) :
    predictLoop env attempt (fuel + 1) cds = (.failure (attempt + 1), cds) := by
  cases s <;>
    first
      | exact absurd rfl hok
      | exact absurd rfl hra
      | simp only [predictLoop_succ_eq, h]

/-- C4 amended: only errors that escape to the task's outer handler are
retried, with backoff `60·2^retries` and at most `max_retries = 3`
retries; every caught error class (model store unavailable or corrupt,
missing feature, no recent data, missing user/consumer) terminates the
run as a failure after its first attempt with no retry; a transient
escaping error on the first two attempts followed by success yields
success on the third attempt after backoffs 60 then 120; an error
escaping every attempt exhausts the run after 4 attempts and backoffs
60, 120, 240. -/
theorem predict_retry_policy (env : ℕ → PredictStep) :
    (env 0 = .raised → env 1 = .raised → env 2 = .ok →
      predictRun env = (.success 3, [60, 120])) ∧
    (∀ s : PredictStep, env 0 = s → s ≠ .ok → s ≠ .raised →
      predictRun env = (.failure 1, [])) ∧
    ((∀ a, env a = .raised) → predictRun env = (.exhausted 4, [60, 120, 240])) := by
  refine ⟨?_, ?_, ?_⟩
  · intro h0 h1 h2
    rw [predictRun,
      predictLoop_raised_retry env 0 _ _ h0 (by norm_num [predictMaxRetries])]
    show predictLoop env 1 (2 + 1) [60] = _
    rw [predictLoop_raised_retry env 1 _ _ h1 (by norm_num [predictMaxRetries])]
    show predictLoop env 2 (1 + 1) [60, 120] = _
    rw [predictLoop_ok env 2 _ _ h2]
  · intro s h0 hok hra
    rw [predictRun, predictLoop_caught env 0 _ _ s h0 hok hra]
  · intro h
    rw [predictRun,
      predictLoop_raised_retry env 0 _ _ (h 0) (by norm_num [predictMaxRetries])]
    show predictLoop env 1 (2 + 1) [60] = _
    rw [predictLoop_raised_retry env 1 _ _ (h 1) (by norm_num [predictMaxRetries])]
    show predictLoop env 2 (1 + 1) [60, 120] = _
    rw [predictLoop_raised_retry env 2 _ _ (h 2) (by norm_num [predictMaxRetries])]
    show predictLoop env 3 (0 + 1) [60, 120, 240] = _
    rw [predictLoop_raised_spent env 3 _ _ (h 3) (by norm_num [predictMaxRetries])]

/-- Witness for C4 (amended): transient failures on the first two
attempts, success on the third — 2 retries at backoffs 60 and 120. -/
theorem predict_retry_policy_witness :
    predictRun envTransientTwice = (.success 3, [60, 120]) :=
  (predict_retry_policy envTransientTwice).1 (by decide) (by decide) (by decide)

/-- Folding `mostRecentAcc` from a seed `w` yields `w` or a list element,
no smaller than the seed and than every element. -/
theorem mostRecentAcc_foldl_spec (vs : List Ventana) (w : Ventana) :
    ∃ v, vs.foldl mostRecentAcc (some w) = some v ∧ (v = w ∨ v ∈ vs) ∧
      w.window_start ≤ v.window_start ∧
      ∀ u ∈ vs, u.window_start ≤ v.window_start := by
  induction vs generalizing w with
  | nil =>
    exact ⟨w, rfl, Or.inl rfl, le_refl _, fun u hu => absurd hu (List.not_mem_nil u)⟩
  | cons a as ih =>
    by_cases h : w.window_start < a.window_start
    · obtain ⟨v, hfold, hmem, hle, hall⟩ := ih a
      refine ⟨v, ?_, ?_, le_trans (le_of_lt h) hle, ?_⟩
      · simpa [mostRecentAcc, h] using hfold
      · rcases hmem with rfl | hv
        · exact Or.inr (List.mem_cons_self v as)
        · exact Or.inr (List.mem_cons_of_mem _ hv)
      · intro u hu
        rcases List.mem_cons.mp hu with rfl | hu'
        · exact hle
        · exact hall u hu'
    · obtain ⟨v, hfold, hmem, hle, hall⟩ := ih w
      refine ⟨v, ?_, ?_, hle, ?_⟩
      · simpa [mostRecentAcc, h] using hfold
      · rcases hmem with rfl | hv
        · exact Or.inl rfl
        · exact Or.inr (List.mem_cons_of_mem _ hv)
      · intro u hu
        rcases List.mem_cons.mp hu with rfl | hu'
        · exact le_trans (not_lt.mp h) hle
        · exact hall u hu'

/-- `mostRecentVentana` returns an element with the maximal
`window_start`, and `none` exactly on the empty list. -/
theorem mostRecentVentana_spec (vs : List Ventana) :
    (mostRecentVentana vs = none ↔ vs = []) ∧
    ∀ v, mostRecentVentana vs = some v →
      v ∈ vs ∧ ∀ w ∈ vs, w.window_start ≤ v.window_start := by
  cases vs with
  | nil =>
    exact ⟨by simp [mostRecentVentana],
      fun v hv => by simp [mostRecentVentana] at hv⟩
  | cons a as =>
    obtain ⟨v, hfold, hmem, hlea, hall⟩ := mostRecentAcc_foldl_spec as a
    have heq : mostRecentVentana (a :: as) = some v := by
      simpa [mostRecentVentana, mostRecentAcc] using hfold
    constructor
    · rw [heq]
      simp
    · intro u hu
      rw [heq] at hu
      have huv : u = v := (Option.some.inj hu).symm
      subst huv
      constructor
      · rcases hmem with rfl | hv
        · exact List.mem_cons_self u as
        · exact List.mem_cons_of_mem _ hv
      · intro w hw
        rcases List.mem_cons.mp hw with rfl | hw'
        · exact hlea
        · exact hall w hw'

/-- A recent but empty window of consumer 1 (id 1, started at minute -5,
inside the 30-minute horizon from minute 0). -/
def exVentanaRecentEmpty : Ventana :=
  { id := 1, consumidor := 1, window_start := -5, window_end := 0,
    hr_mean := none, hr_std_sq := none, accel_energy := none, gyro_energy := none }

/-- An older window of consumer 1 (id 2, started at minute -20), also
inside the horizon. -/
def exVentanaOlder : Ventana :=
  { id := 2, consumidor := 1, window_start := -20, window_end := -15,
    hr_mean := none, hr_std_sq := none, accel_energy := none, gyro_energy := none }

/-- A store where the most recent in-horizon window (id 1) has no
readings while the older in-horizon window (id 2) has one. -/
def exStoreStale : Store :=
  { consumidores := [{ id := 1, usuario := 1, is_simulating := true }],
    ventanas := [exVentanaRecentEmpty, exVentanaOlder],
    lecturas := [{ id := 1, ventana := 2, data := exLectura }],
    deseos := [], notificaciones := [] }

/-- Counterexample to C5: an in-horizon window (id 2) holds a reading,
yet feature derivation fails, because the single most recent in-horizon
window (id 1) is consulted and it has no readings — the code does not
fall back to an older window with readings as the claim requires. -/
theorem features_most_recent_counterexample :
    calculateFeaturesFromReadings exStoreStale 1 0 = none ∧
    ∃ v ∈ ventanasInHorizon exStoreStale 1 0 30,
      lecturasOf exStoreStale v.id ≠ [] := by
  constructor
  · decide
  · decide

/-- C5 amended: feature derivation consults exactly the single most
recent window whose `window_start` lies within the 30-minute horizon; it
fails (terminal no-recent-data result) when the horizon is empty or when
that particular window has no readings, and otherwise derives the
features from that window's readings. -/
theorem features_from_most_recent_window (st : Store) (cid : ℕ) (now : ℤ) :
    (∀ v, mostRecentVentana (ventanasInHorizon st cid now 30) = some v →
      v ∈ st.ventanas ∧ v.consumidor = cid ∧ now - 30 ≤ v.window_start ∧
      (∀ w ∈ ventanasInHorizon st cid now 30, w.window_start ≤ v.window_start) ∧
      (lecturasOf st v.id = [] → calculateFeaturesFromReadings st cid now = none) ∧
      (lecturasOf st v.id ≠ [] →
        calculateFeaturesFromReadings st cid now =
          some (featuresFromLecturas (lecturasOf st v.id), v.id))) ∧
    (ventanasInHorizon st cid now 30 = [] →
      calculateFeaturesFromReadings st cid now = none) := by
  constructor
  · intro v hv
    obtain ⟨hmem, hmax⟩ :=
      (mostRecentVentana_spec (ventanasInHorizon st cid now 30)).2 v hv
    have hm := List.mem_filter.mp hmem
    have hprops : v.consumidor = cid ∧ now - 30 ≤ v.window_start := by
      have h2 := hm.2
      simp only [Bool.and_eq_true, beq_iff_eq, decide_eq_true_eq] at h2
      exact h2
    refine ⟨hm.1, hprops.1, hprops.2, hmax, ?_, ?_⟩
    · intro hls
      simp [calculateFeaturesFromReadings, hv, hls]
    · intro hls
      simp [calculateFeaturesFromReadings, hv, hls]
  · intro hemp
    simp [calculateFeaturesFromReadings, hemp, mostRecentVentana]

/-- A store whose most recent in-horizon window (id 1) has one reading. -/
def exStoreFresh : Store :=
  { consumidores := [{ id := 1, usuario := 1, is_simulating := true }],
    ventanas := [exVentanaRecentEmpty, exVentanaOlder],
    lecturas := [{ id := 1, ventana := 1, data := exLectura }],
    deseos := [], notificaciones := [] }

/-- Witness for C5 (amended): with a reading in the most recent in-horizon
window, the features come from exactly that window. -/
theorem features_from_most_recent_window_witness :
    calculateFeaturesFromReadings exStoreFresh 1 0 =
      some (featuresFromLecturas (lecturasOf exStoreFresh 1), 1) :=
  ((features_from_most_recent_window exStoreFresh 1 0).1 exVentanaRecentEmpty
    (by decide)).2.2.2.2.2 (by decide)

/-- A `filterMap` over a list where the function never misses is the
corresponding `map`. -/
theorem filterMap_eq_map_of_isSome {α β : Type} (f : α → Option β) (d : β)
    (ls : List α) (h : ∀ l ∈ ls, (f l).isSome) :
    ls.filterMap f = ls.map (fun l => (f l).getD d) := by
  induction ls with
  | nil => rfl
  | cons a as ih =>
    obtain ⟨x, hx⟩ := Option.isSome_iff_exists.mp (h a (List.mem_cons_self a as))
    simp [List.filterMap_cons, hx,
      ih (fun l hl => h l (List.mem_cons_of_mem _ hl))]

/-- Pointwise addition of two maps over the same list is the map of the
pointwise sum. -/
theorem zipWith_add_map_same {α : Type} (f g : α → ℚ) (ls : List α) :
    List.zipWith (· + ·) (ls.map f) (ls.map g) = ls.map (fun l => f l + g l) := by
  induction ls <;> simp_all

/-- When every triple is complete, the specification's per-reading energy
sum is the map-sum of the three squared components. -/
theorem completeTripleEnergy_eq_map (ax ay az : Lectura → Option ℚ)
    (ls : List Lectura)
    (h : ∀ l ∈ ls, (ax l).isSome ∧ (ay l).isSome ∧ (az l).isSome) :
    completeTripleEnergy ax ay az ls =
      (ls.map (fun l =>
        ((ax l).getD 0) ^ 2 + ((ay l).getD 0) ^ 2 + ((az l).getD 0) ^ 2)).sum := by
  induction ls with
  | nil => rfl
  | cons a as ih =>
    obtain ⟨hxa, hya, hza⟩ := h a (List.mem_cons_self a as)
    obtain ⟨x, hx⟩ := Option.isSome_iff_exists.mp hxa
    obtain ⟨y, hy⟩ := Option.isSome_iff_exists.mp hya
    obtain ⟨z, hz⟩ := Option.isSome_iff_exists.mp hza
    have ih' := ih (fun l hl => h l (List.mem_cons_of_mem _ hl))
    unfold completeTripleEnergy at ih' ⊢
    simp [List.filterMap_cons, hx, hy, hz, ih']

/-- When every triple is complete and the window is nonempty, the code's
per-axis energy computation succeeds and agrees with the specification's
per-reading complete-triple sum. -/
theorem axisEnergy_complete (ax ay az : Lectura → Option ℚ) (ls : List Lectura)
    (hne : ls ≠ [])
    (h : ∀ l ∈ ls, (ax l).isSome ∧ (ay l).isSome ∧ (az l).isSome) :
    axisEnergy (presentAxis ax ls) (presentAxis ay ls) (presentAxis az ls) =
      .value (completeTripleEnergy ax ay az ls) := by
  have hx : presentAxis ax ls = ls.map (fun l => (ax l).getD 0) :=
    filterMap_eq_map_of_isSome _ 0 _ (fun l hl => (h l hl).1)
  have hy : presentAxis ay ls = ls.map (fun l => (ay l).getD 0) :=
    filterMap_eq_map_of_isSome _ 0 _ (fun l hl => (h l hl).2.1)
  have hz : presentAxis az ls = ls.map (fun l => (az l).getD 0) :=
    filterMap_eq_map_of_isSome _ 0 _ (fun l hl => (h l hl).2.2)
  unfold axisEnergy
  rw [hx, hy, hz,
    if_neg (by simp [hne]),
    completeTripleEnergy_eq_map ax ay az ls h]
  simp [npBroadcastAdd, List.map_map, Function.comp_def, zipWith_add_map_same]

/-- A reading with no heart-rate value but complete motion triples. -/
def exLecturaNoHr : Lectura :=
  { heart_rate := none, accel_x := some 1, accel_y := some 1, accel_z := some 1,
    gyro_x := some 1, gyro_y := some 1, gyro_z := some 1 }

/-- Counterexample to C3: on the feature-derivation path used for
prediction, a missing heart-rate value is substituted by `0` instead of
being ignored — over one hr-less reading and one reading at 80 bpm the
derived `hr_mean` is 40 while the population mean over the present
heart-rate values is 80. -/
theorem feature_path_hr_counterexample :
    (featuresFromLecturas [exLecturaNoHr, exLectura]).hr_mean = 40 ∧
    listMean (presentHeartRates [exLecturaNoHr, exLectura]) = 80 ∧
    (40 : ℚ) ≠ 80 := by
  refine ⟨?_, ?_, by norm_num⟩
  · norm_num [featuresFromLecturas, listMean, exLecturaNoHr, exLectura]
  · norm_num [presentHeartRates, listMean, exLecturaNoHr, exLectura,
      List.filterMap_cons]

/-- C3 amended: `calculate_ventana_statistics` computes `hr_mean`/`hr_std`
as population statistics over exactly the present heart-rate values
(fields left untouched when none exist) and, whenever every reading's
accelerometer and gyroscope triples are complete, sets the energies to
`Σ (x²+y²+z²)` over the readings; the feature-derivation path agrees with
those formulas only in the absence of missing fields (it substitutes `0`
for every missing field). -/
theorem statistics_semantics (v : Ventana) (ls : List Lectura) (hne : ls ≠ [])
    (hacc : ∀ l ∈ ls,
      (l.accel_x).isSome ∧ (l.accel_y).isSome ∧ (l.accel_z).isSome)
    (hgyr : ∀ l ∈ ls,
      (l.gyro_x).isSome ∧ (l.gyro_y).isSome ∧ (l.gyro_z).isSome) :
    (∃ v', applyStatistics v ls = some v' ∧
      (presentHeartRates ls ≠ [] →
        v'.hr_mean = some (listMean (presentHeartRates ls)) ∧
        v'.hr_std_sq = some (listPopVar (presentHeartRates ls))) ∧
      (presentHeartRates ls = [] →
        v'.hr_mean = v.hr_mean ∧ v'.hr_std_sq = v.hr_std_sq) ∧
      v'.accel_energy = some
        (completeTripleEnergy Lectura.accel_x Lectura.accel_y Lectura.accel_z ls) ∧
      v'.gyro_energy = some
        (completeTripleEnergy Lectura.gyro_x Lectura.gyro_y Lectura.gyro_z ls)) ∧
    ((∀ l ∈ ls, (l.heart_rate).isSome) →
      (featuresFromLecturas ls).hr_mean = listMean (presentHeartRates ls) ∧
      (featuresFromLecturas ls).hr_std_sq = listPopVar (presentHeartRates ls)) ∧
    (featuresFromLecturas ls).accel_energy =
      completeTripleEnergy Lectura.accel_x Lectura.accel_y Lectura.accel_z ls ∧
    (featuresFromLecturas ls).gyro_energy =
      completeTripleEnergy Lectura.gyro_x Lectura.gyro_y Lectura.gyro_z ls := by
  have hae := axisEnergy_complete Lectura.accel_x Lectura.accel_y Lectura.accel_z
    ls hne hacc
  have hge := axisEnergy_complete Lectura.gyro_x Lectura.gyro_y Lectura.gyro_z
    ls hne hgyr
  refine ⟨?_, ?_, ?_, ?_⟩
  · by_cases hh : presentHeartRates ls = []
    · refine ⟨{ v with
          accel_energy := some (completeTripleEnergy Lectura.accel_x
            Lectura.accel_y Lectura.accel_z ls),
          gyro_energy := some (completeTripleEnergy Lectura.gyro_x
            Lectura.gyro_y Lectura.gyro_z ls) },
        ?_, ?_, ?_, rfl, rfl⟩
      · simp only [applyStatistics, if_pos hh, hae, hge]
      · intro hcon
        exact absurd hh hcon
      · intro _
        exact ⟨rfl, rfl⟩
    · refine ⟨{ v with
          hr_mean := some (listMean (presentHeartRates ls)),
          hr_std_sq := some (listPopVar (presentHeartRates ls)),
          accel_energy := some (completeTripleEnergy Lectura.accel_x
            Lectura.accel_y Lectura.accel_z ls),
          gyro_energy := some (completeTripleEnergy Lectura.gyro_x
            Lectura.gyro_y Lectura.gyro_z ls) },
        ?_, ?_, ?_, rfl, rfl⟩
      · simp only [applyStatistics, if_neg hh, hae, hge]
      · intro _
        exact ⟨rfl, rfl⟩
      · intro hcon
        exact absurd hcon hh
  · intro hhr
    have hmap : presentHeartRates ls = ls.map (fun l => (l.heart_rate).getD 0) :=
      filterMap_eq_map_of_isSome _ 0 _ hhr
    rw [featuresFromLecturas, hmap]
    exact ⟨rfl, rfl⟩
  · rw [featuresFromLecturas, completeTripleEnergy_eq_map _ _ _ ls hacc]
  · rw [featuresFromLecturas, completeTripleEnergy_eq_map _ _ _ ls hgyr]

/-- Witness for C3 (amended) on one complete reading: the statistics path
fills all four fields with the per-reading formulas, and the feature path
agrees. -/
theorem statistics_semantics_witness :
    (∃ v', applyStatistics exVentanaOptedOut [exLectura] = some v' ∧
      (presentHeartRates [exLectura] ≠ [] →
        v'.hr_mean = some (listMean (presentHeartRates [exLectura])) ∧
        v'.hr_std_sq = some (listPopVar (presentHeartRates [exLectura]))) ∧
      (presentHeartRates [exLectura] = [] →
        v'.hr_mean = exVentanaOptedOut.hr_mean ∧
        v'.hr_std_sq = exVentanaOptedOut.hr_std_sq) ∧
      v'.accel_energy = some (completeTripleEnergy Lectura.accel_x Lectura.accel_y
        Lectura.accel_z [exLectura]) ∧
      v'.gyro_energy = some (completeTripleEnergy Lectura.gyro_x Lectura.gyro_y
        Lectura.gyro_z [exLectura])) ∧
    (featuresFromLecturas [exLectura]).accel_energy =
      completeTripleEnergy Lectura.accel_x Lectura.accel_y Lectura.accel_z
        [exLectura] :=
  ⟨(statistics_semantics exVentanaOptedOut [exLectura] (by decide) (by decide)
      (by decide)).1,
   (statistics_semantics exVentanaOptedOut [exLectura] (by decide) (by decide)
      (by decide)).2.2.1⟩

/-- Recomputing statistics over the same accumulated reading set is
idempotent: a second run maps the already-updated window to itself. -/
theorem applyStatistics_idem (v : Ventana) (ls : List Lectura) (v' : Ventana)
    (h : applyStatistics v ls = some v') : applyStatistics v' ls = some v' := by
  cases v
  unfold applyStatistics at h ⊢
  by_cases hh : presentHeartRates ls = [] <;>
    rcases hae : axisEnergy (presentAxis Lectura.accel_x ls)
        (presentAxis Lectura.accel_y ls) (presentAxis Lectura.accel_z ls)
      with _ | _ | e <;>
    rcases hge : axisEnergy (presentAxis Lectura.gyro_x ls)
        (presentAxis Lectura.gyro_y ls) (presentAxis Lectura.gyro_z ls)
      with _ | _ | e2 <;>
    simp only [hh, hae, hge, if_pos, if_neg, if_true, if_false, ite_true,
      ite_false, reduceCtorEq, Option.some.injEq] at h ⊢ <;>
    subst h <;>
    simp [hh]

/-- `calculate_ventana_statistics` never adds or removes rows: the window
count and the reading table are untouched on every outcome (the `ok`
outcome overwrites one window in place). -/
theorem calcStats_frame (st : Store) (vid : ℕ) :
    (calculateVentanaStatistics st vid).1.ventanas.length = st.ventanas.length ∧
    (calculateVentanaStatistics st vid).1.lecturas = st.lecturas := by
  unfold calculateVentanaStatistics
  cases hfv : findVentana st vid with
  | none => exact ⟨rfl, rfl⟩
  | some v =>
    by_cases hls : lecturasOf st vid = []
    · simp [hls]
    · cases hap : applyStatistics v (lecturasOf st vid) with
      | none => simp [hls, hap]
      | some v2 => simp [hls, hap, saveVentana]

/-- An existing window whose statistics were already computed. -/
def exVentanaStats : Ventana :=
  { id := 9, consumidor := 1, window_start := 0, window_end := 5,
    hr_mean := some 99, hr_std_sq := some 1, accel_energy := some 2,
    gyro_energy := some 3 }

/-- A feature vector differing from `exVentanaStats`'s stored
statistics. -/
def exFeatures : Features :=
  { hr_mean := 40, hr_std_sq := 0, accel_energy := 6, gyro_energy := 6 }

/-- Counterexample to C6: the prediction worker's persistence step — not
the Statistics Calculator — overwrites the statistics fields of an
existing window: it changes `hr_mean` of window 9 from 99 to 40. -/
theorem predict_overwrites_stats_counterexample :
    (predictPersistStats exVentanaStats exFeatures).hr_mean = some 40 ∧
    exVentanaStats.hr_mean = some 99 ∧
    predictPersistStats exVentanaStats exFeatures ≠ exVentanaStats := by
  refine ⟨rfl, rfl, ?_⟩
  intro h
  have h2 := congrArg Ventana.hr_mean h
  simp only [predictPersistStats, exVentanaStats, exFeatures,
    Option.some.injEq] at h2
  norm_num at h2

/-- C6 amended: statistics recomputation by the Statistics Calculator is
idempotent (same reading set, same result) and overwrites in place
(no rows added or removed), but it is not the only writer of the four
statistics fields: the prediction worker's persistence step
unconditionally overwrites them with its feature values on every
prediction run, preserving the window's identity fields. -/
theorem statistics_write_semantics (st : Store) (vid : ℕ) (v : Ventana)
    (ls : List Lectura) (v' : Ventana) (f : Features)
    (h : applyStatistics v ls = some v') :
    applyStatistics v' ls = some v' ∧
    (calculateVentanaStatistics st vid).1.ventanas.length = st.ventanas.length ∧
    (calculateVentanaStatistics st vid).1.lecturas = st.lecturas ∧
    (predictPersistStats v f).hr_mean = some f.hr_mean ∧
    (predictPersistStats v f).hr_std_sq = some f.hr_std_sq ∧
    (predictPersistStats v f).accel_energy = some f.accel_energy ∧
    (predictPersistStats v f).gyro_energy = some f.gyro_energy ∧
    (predictPersistStats v f).id = v.id ∧
    (predictPersistStats v f).consumidor = v.consumidor := by
  exact ⟨applyStatistics_idem v ls v' h, (calcStats_frame st vid).1,
    (calcStats_frame st vid).2, rfl, rfl, rfl, rfl, rfl, rfl⟩

/-- The result of computing statistics for `exVentanaOptedOut` over the
single reading `exLectura`. -/
def exVentanaComputed : Ventana :=
  { id := 5, consumidor := 1, window_start := 0, window_end := 10,
    hr_mean := some 80, hr_std_sq := some 0, accel_energy := some 3,
    gyro_energy := some 3 }

/-- Witness for C6 (amended): recomputation on the already-computed window
converges, and the prediction persistence step overwrites the fields. -/
theorem statistics_write_semantics_witness :
    applyStatistics exVentanaComputed [exLectura] = some exVentanaComputed ∧
    (predictPersistStats exVentanaOptedOut exFeatures).hr_mean = some 40 :=
  ⟨(statistics_write_semantics exStore 0 exVentanaOptedOut [exLectura]
      exVentanaComputed exFeatures (by
        norm_num [applyStatistics, presentHeartRates, presentAxis, axisEnergy,
          npBroadcastAdd, listMean, listPopVar, exLectura, exVentanaOptedOut,
          exVentanaComputed, List.filterMap_cons])).1,
   (statistics_write_semantics exStore 0 exVentanaOptedOut [exLectura]
      exVentanaComputed exFeatures (by
        norm_num [applyStatistics, presentHeartRates, presentAxis, axisEnergy,
          npBroadcastAdd, listMean, listPopVar, exLectura, exVentanaOptedOut,
          exVentanaComputed, List.filterMap_cons])).2.2.2.1⟩

end WearableApi
